import Mathlib

/-!
Shallow embedding of the PythonBulkDataIO repository: four standalone
batch-import scripts (`main.py`, `mainWithRadar.py`, `tallyDealers.py`,
`verifiedDealers.py`) that clean spreadsheet cell values, assemble one tuple
per row, batch-insert the tuples inside one transaction, and, in
`mainWithRadar.py`, mirror each inserted record to the Radar geofencing API.

Python strings are modelled as `List Char` (the native `String` primitives do
not reduce in the kernel); a spreadsheet cell is either pandas-NA/NaT or a
value carrying its Python `str()` form together with the outcome of `float()`
on it. Database effects are modelled by a small trace semantics over an
explicit connection/transaction state.
-/

/-- A Python string, as a list of characters. -/
abbrev PyStr := List Char

/-- Python `str.strip()`: remove leading and trailing whitespace. -/
def pstrip (s : PyStr) : PyStr :=
((s.dropWhile Char.isWhitespace).reverse.dropWhile Char.isWhitespace).reverse

/-- Python `str.lower()`, character by character. -/
def plower (s : PyStr) : PyStr := s.map Char.toLower

/-- Embeds the regex substitution `re.sub(r'\.0$', '', s)` of the scripts:
remove one trailing `".0"` when present. -/
def stripDotZero (s : PyStr) : PyStr :=
if ['.', '0'].isSuffixOf s then s.dropLast.dropLast else s

/-- A spreadsheet cell as the scripts see it: either pandas NA/NaT, or a
non-NA Python value with `str()` form `s` and `float()` outcome `asFloat`
(`none` when `float(value)` would raise). -/
inductive Cell where
| na : Cell
| val (s : PyStr) (asFloat : Option Rat) : Cell
deriving DecidableEq

/-- Embeds `clean_value` of `main.py` (lines 43-61); `tallyDealers.py`
lines 70-82 and `verifiedDealers.py` lines 44-57 are the same function with
the two emptiness tests swapped. NA maps to `None`; otherwise the value is
stringified and stripped; an empty or (case-insensitively) `"nan"` result
maps to `None`; otherwise one trailing `".0"` is removed. -/
def clean_value (c : Cell) : Option PyStr :=
match c with
| .na => none
| .val s _ =>
  let t := pstrip s
  if t = [] ∨ plower t = "nan".data then none
  else some (stripDotZero t)

/-- Embeds `clean_boolean` of `verifiedDealers.py` (lines 60-72). -/
def clean_boolean (c : Cell) : Option Bool :=
match c with
| .na => none
| .val s _ =>
  let v := plower (pstrip s)
  if v = "true".data ∨ v = "yes".data ∨ v = "1".data then some true
  else if v = "false".data ∨ v = "no".data ∨ v = "0".data then some false
  else none

/-- Embeds `clean_numeric` of `tallyDealers.py` (lines 85-91): `None` on NA,
`float(value)` when it parses, `None` when `float` raises. -/
def clean_numeric (c : Cell) : Option Rat :=
match c with
| .na => none
| .val _ f => f

/-- A pandas numeric cell after `pd.to_numeric(..., errors='coerce')`:
either NaN or a number. -/
inductive PdNum where
| nan : PdNum
| num (q : Rat) : PdNum
deriving DecidableEq

/-- Embeds `pd.to_numeric(col, errors='coerce')` applied to one cell: NA and
unparseable values coerce to NaN. -/
def to_numeric_coerce (c : Cell) : PdNum :=
match c with
| .na => .nan
| .val _ none => .nan
| .val _ (some q) => .num q

/-- Integer truncation toward zero, as Python's `int()` / numpy `astype(int)`
on a finite value. -/
def ratTrunc (q : Rat) : Int :=
if q < 0 then ⌈q⌉ else ⌊q⌋

/-- Embeds the `numeric_cols` pipeline of `main.py` lines 156-158 and
`mainWithRadar.py` lines 198-200 applied to one cell:
`pd.to_numeric(col, errors='coerce').fillna(0).astype(int)`. -/
def coerce_int_cell (c : Cell) : Int :=
match to_numeric_coerce c with
| .nan => 0
| .num q => ratTrunc q

/-- Embeds the `numeric_float_cols` pipeline of `main.py` lines 160-162 and
`mainWithRadar.py` lines 202-204 applied to one cell:
`pd.to_numeric(col, errors='coerce').apply(lambda x: None if pd.isna(x) else x)`. -/
def coerce_float_cell (c : Cell) : Option Rat :=
match to_numeric_coerce c with
| .nan => none
| .num q => some q

/-- A Python value as it occurs in the assembled record tuples: `None`, a
string, an int, a float (modelled as a rational), a `datetime.date` (modelled
by an abstract day ordinal), a bool, or a list of strings (the
`brand_selling` array). -/
inductive Py where
| none : Py
| str (s : PyStr) : Py
| int (n : Int) : Py
| float (q : Rat) : Py
| date (d : Nat) : Py
| bool (b : Bool) : Py
| strlist (l : List PyStr) : Py
deriving DecidableEq

/-- Python `str()` on a tuple element. The scripts apply it only to `None`,
strings and ints (`str(dealer_id)`, `str(user_id)`, `str(name)`); the float,
date and list renderings are abstracted since no modelled code path reaches
them. -/
def pyStr (v : Py) : PyStr :=
match v with
| .none => "None".data
| .str s => s
| .int n => (toString n).data
| .float q => (toString q).data
| .date d => (toString d).data
| .bool b => if b then "True".data else "False".data
| .strlist _ => []

/-- Python truthiness, as used by `str(user_id) if user_id else None` in
`upsert_radar_geofence`. -/
def pyTruthy (v : Py) : Bool :=
match v with
| .none => false
| .str s => !s.isEmpty
| .int n => decide (n ≠ 0)
| .float q => decide (q ≠ 0)
| .date _ => true
| .bool b => b
| .strlist l => !l.isEmpty

/-- Python `float()` on a tuple element, used on the latitude/longitude slots;
those slots only ever hold numbers (the non-numeric cases are unreachable
because the caller skips records whose coordinates are `None`). -/
def pyFloat (v : Py) : Rat :=
match v with
| .int n => (n : Rat)
| .float q => q
| _ => 0

/-- Lifts an optional string produced by `clean_value` into a tuple slot. -/
def pyOfOptStr (o : Option PyStr) : Py :=
match o with
| Option.none => .none
| some s => .str s

/-- Lifts an optional float (latitude/longitude) into a tuple slot. -/
def pyOfOptRat (o : Option Rat) : Py :=
match o with
| Option.none => .none
| some q => .float q

/-- Lifts an optional date into a tuple slot. -/
def pyOfOptDate (o : Option Nat) : Py :=
match o with
| Option.none => .none
| some d => .date d

/-- Embeds the `brand_selling` branch of the main loop (`main.py`
lines 190-195, `mainWithRadar.py` lines 226-230): NA, `None` or a
(case-insensitive) `'nan'` string become `None`, anything else becomes the
one-element list holding the stripped string. -/
def brand_list_or_none (c : Cell) : Option (List PyStr) :=
match c with
| .na => none
| .val s _ =>
  if plower (pstrip s) = "nan".data then none
  else some [pstrip s]

/-- One DataFrame row of `main.py` / `mainWithRadar.py` after the explicit
type-casting section: ints from the `numeric_cols` pipeline, optional floats
from `numeric_float_cols`, optional dates from `date_cols`, `clean_value`
outputs for the string columns, a plain string for `phone_no`, and the raw
cell for `brand_selling` (cleaned only inside the loop). -/
structure DealerRow where
  user_id : Int
  type : Option PyStr
  parent_dealer_id : Option PyStr
  name : Option PyStr
  region : Option PyStr
  area : Option PyStr
  phone_no : PyStr
  address : Option PyStr
  total_potential : Int
  best_potential : Int
  brand_selling : Cell
  feedbacks : Option PyStr
  remarks : Option PyStr
  pinCode : Option PyStr
  dateOfBirth : Option Nat
  anniversaryDate : Option Nat
  latitude : Option Rat
  longitude : Option Rat
  verificationStatus : Option PyStr
  business_type : Option PyStr
  nameOfFirm : Option PyStr
  underSalesPromoterName : Option PyStr
  gstin_no : Option PyStr
  pan_no : Option PyStr
deriving DecidableEq

/-- `TARGET_COLUMNS` of `main.py` lines 26-32 and `mainWithRadar.py`
lines 24-30. -/
def TARGET_COLUMNS : List String :=
["id", "user_id", "type", "parent_dealer_id", "name", "region", "area",
 "phone_no", "address", "total_potential", "best_potential", "brand_selling",
 "feedbacks", "remarks", "pinCode", "dateOfBirth", "anniversaryDate",
 "latitude", "longitude", "verification_status", "business_type",
 "nameOfFirm", "underSalesPromoterName", "gstin_no", "pan_no"]

/-- `EXPECTED_COLUMNS = len(TARGET_COLUMNS)`. -/
def EXPECTED_COLUMNS : Nat := TARGET_COLUMNS.length

/-- A record tuple: one element per target column. -/
abbrev DataRec := List Py

/-- Embeds the `data_tuple` literal of the main loop (`main.py`
lines 197-223, `mainWithRadar.py` lines 235-261): the generated UUID string
`id` followed by the 24 row values in `TARGET_COLUMNS` order. -/
def data_tuple (id : PyStr) (r : DealerRow) : DataRec :=
[ .str id,
  .int r.user_id,
  pyOfOptStr r.type,
  pyOfOptStr r.parent_dealer_id,
  pyOfOptStr r.name,
  pyOfOptStr r.region,
  pyOfOptStr r.area,
  .str r.phone_no,
  pyOfOptStr r.address,
  .int r.total_potential,
  .int r.best_potential,
  (match brand_list_or_none r.brand_selling with
   | Option.none => .none
   | some l => .strlist l),
  pyOfOptStr r.feedbacks,
  pyOfOptStr r.remarks,
  pyOfOptStr r.pinCode,
  pyOfOptDate r.dateOfBirth,
  pyOfOptDate r.anniversaryDate,
  pyOfOptRat r.latitude,
  pyOfOptRat r.longitude,
  pyOfOptStr r.verificationStatus,
  pyOfOptStr r.business_type,
  pyOfOptStr r.nameOfFirm,
  pyOfOptStr r.underSalesPromoterName,
  pyOfOptStr r.gstin_no,
  pyOfOptStr r.pan_no ]

/-- Embeds the record-assembly loop of `main.py` lines 186-229 /
`mainWithRadar.py` lines 223-267: build the tuple for each row (paired with
its generated UUID) and append it unless the length check rejects it. -/
def records_to_insert (rows : List (PyStr × DealerRow)) : List DataRec :=
rows.foldl
  (fun acc p =>
    if (data_tuple p.1 p.2).length ≠ EXPECTED_COLUMNS then acc
    else acc ++ [data_tuple p.1 p.2])
  []


/-- One DataFrame row of `verifiedDealers.py` after cleaning: `clean_value`
outputs for the fifteen string columns and a `clean_boolean` output for
`is_subdealer`. -/
structure VerifiedRow where
  dealer_code : Option PyStr
  dealer_category : Option PyStr
  is_subdealer : Option Bool
  dealer_party_name : Option PyStr
  zone : Option PyStr
  area : Option PyStr
  contact_no1 : Option PyStr
  contact_no2 : Option PyStr
  email : Option PyStr
  address : Option PyStr
  pin_code : Option PyStr
  related_sp_name : Option PyStr
  owner_proprietor_name : Option PyStr
  nature_of_firm : Option PyStr
  gst_no : Option PyStr
  pan_no : Option PyStr
deriving DecidableEq

/-- `TARGET_COLUMNS` of `verifiedDealers.py` lines 19-36. -/
def vd_TARGET_COLUMNS : List String :=
["dealer_code", "dealer_category", "is_subdealer", "dealer_party_name",
 "zone", "area", "contact_no1", "contact_no2", "email", "address",
 "pin_code", "related_sp_name", "owner_proprietor_name", "nature_of_firm",
 "gst_no", "pan_no"]

/-- `EXPECTED_COLUMNS` of `verifiedDealers.py`. -/
def vd_EXPECTED_COLUMNS : Nat := vd_TARGET_COLUMNS.length

/-- Lifts a `clean_boolean` output into a tuple slot. -/
def pyOfOptBool (o : Option Bool) : Py :=
match o with
| Option.none => .none
| some b => .bool b

/-- Embeds the `data_tuple` literal of `verifiedDealers.py` lines 166-183. -/
def vdata_tuple (r : VerifiedRow) : DataRec :=
[ pyOfOptStr r.dealer_code,
  pyOfOptStr r.dealer_category,
  pyOfOptBool r.is_subdealer,
  pyOfOptStr r.dealer_party_name,
  pyOfOptStr r.zone,
  pyOfOptStr r.area,
  pyOfOptStr r.contact_no1,
  pyOfOptStr r.contact_no2,
  pyOfOptStr r.email,
  pyOfOptStr r.address,
  pyOfOptStr r.pin_code,
  pyOfOptStr r.related_sp_name,
  pyOfOptStr r.owner_proprietor_name,
  pyOfOptStr r.nature_of_firm,
  pyOfOptStr r.gst_no,
  pyOfOptStr r.pan_no ]

/-- Embeds the record-assembly loop of `verifiedDealers.py` lines 162-186:
append the tuple whenever the length check accepts it. -/
def vd_records_to_insert (rows : List VerifiedRow) : List DataRec :=
rows.foldl
  (fun acc r =>
    if (vdata_tuple r).length = vd_EXPECTED_COLUMNS then acc ++ [vdata_tuple r]
    else acc)
  []

/-- The form payload of the Radar geofence PUT built by
`upsert_radar_geofence` (`mainWithRadar.py` lines 85-94). -/
structure RadarPayload where
  description : PyStr
  type : String
  coordinates : List Rat
  radius : String
  tag : String
  externalId : PyStr
  metadata : List (String × Py)
deriving DecidableEq

/-- Embeds the metadata dictionary of `upsert_radar_geofence`
(`mainWithRadar.py` lines 74-83): the six fixed keys, with
`userId = str(user_id) if user_id else None`, then the removal of every
`None`-valued key. -/
def radar_metadata (dealer_id user_id region area phone_no
    verification_status : Py) : List (String × Py) :=
([("dealerId", Py.str (pyStr dealer_id)),
  ("userId", if pyTruthy user_id then Py.str (pyStr user_id) else Py.none),
  ("region", region),
  ("area", area),
  ("phoneNo", phone_no),
  ("verificationStatus", verification_status)]).filter
  (fun kv => kv.2 ≠ Py.none)

/-- Embeds `upsert_radar_geofence` of `mainWithRadar.py` lines 45-106, up to
the HTTP request it issues: the tuple slots named in the source are read off
the record (`dealer_data[0]`, `[1]`, `[4]`, `[5]`, `[6]`, `[7]`, `[17]`,
`[18]`, `[19]`); `none` means the function returns `False` without issuing a
request (missing coordinates), `some p` means one PUT with payload `p` is
issued. -/
def upsert_radar_geofence (dealer_data : DataRec) : Option RadarPayload :=
let dealer_id := dealer_data.getD 0 Py.none
let user_id := dealer_data.getD 1 Py.none
let name := dealer_data.getD 4 Py.none
let region := dealer_data.getD 5 Py.none
let area := dealer_data.getD 6 Py.none
let phone_no := dealer_data.getD 7 Py.none
let latitude := dealer_data.getD 17 Py.none
let longitude := dealer_data.getD 18 Py.none
let verification_status := dealer_data.getD 19 Py.none
if latitude = Py.none ∨ longitude = Py.none then none
else some
  { description := (pyStr name).take 120
    type := "circle"
    coordinates := [pyFloat longitude, pyFloat latitude]
    radius := "50"
    tag := "dealer"
    externalId := "dealer:".data ++ pyStr dealer_id
    metadata := radar_metadata dealer_id user_id region area phone_no
      verification_status }

/-- The boolean value `upsert_radar_geofence` returns, given whether the HTTP
response (when a request is issued at all) has status 200/201. -/
def upsert_radar_result (dealer_data : DataRec) (respOk : Bool) : Bool :=
match upsert_radar_geofence dealer_data with
| Option.none => false
| some _ => respOk

/-- Observable events of one script run: the psycopg2 connection lifecycle
plus the Radar HTTP PUTs of `mainWithRadar.py`. -/
inductive Ev where
| connect : Ev
| setAutocommit (b : Bool) : Ev
| execBatch (recs : List DataRec) : Ev
| commit : Ev
| rollback : Ev
| close : Ev
| httpPut (p : RadarPayload) : Ev
deriving DecidableEq

/-- Connection and database state: committed rows, the pending rows of the
open transaction, whether a connection is open, and the autocommit flag. -/
structure PgState where
  db : List DataRec
  pending : List DataRec
  openConn : Bool
  autocommit : Bool
deriving DecidableEq

/-- Effect of one event on the connection state. With autocommit disabled,
executed statements only accumulate in the open transaction; `commit` makes
them durable, `rollback` discards them, and `close` discards whatever is
still uncommitted. -/
def step (st : PgState) (e : Ev) : PgState :=
match e with
| .connect => { st with openConn := true, autocommit := true, pending := [] }
| .setAutocommit b => { st with autocommit := b }
| .execBatch recs =>
  if st.autocommit then { st with db := st.db ++ recs }
  else { st with pending := st.pending ++ recs }
| .commit => { st with db := st.db ++ st.pending, pending := [] }
| .rollback => { st with pending := [] }
| .close => { st with openConn := false, pending := [] }
| .httpPut _ => st

/-- Runs a trace of events from a state. -/
def runTrace (st : PgState) (tr : List Ev) : PgState := tr.foldl step st

/-- The initial state of a run over a database holding `db`: no connection
open, no transaction pending. -/
def initState (db : List DataRec) : PgState :=
{ db := db, pending := [], openConn := false, autocommit := true }

/-- How one run of `insert_data_to_neon` can go: the whole batch executes and
commits; `psycopg2.connect` raises; `execute_batch` raises a
`psycopg2.Error` after `done` statements took effect inside the transaction;
or `conn.commit()` raises a `psycopg2.Error`. -/
inductive BatchOutcome where
| ok : BatchOutcome
| connectErr : BatchOutcome
| execErr (done : List DataRec) : BatchOutcome
| commitErr : BatchOutcome
deriving DecidableEq

/-- Embeds `insert_data_to_neon` (`main.py` lines 63-115, `tallyDealers.py`
lines 98-136, `verifiedDealers.py` lines 75-106) as the event trace of one
call: connect, disable autocommit, execute the batch, then commit — or, when
the driver raises, roll back; the `finally` block closes the connection
whenever one was opened. -/
def insert_data_to_neon (recs : List DataRec) (outcome : BatchOutcome) :
    List Ev :=
match outcome with
| .ok => [.connect, .setAutocommit false, .execBatch recs, .commit, .close]
| .connectErr => []
| .execErr done =>
  [.connect, .setAutocommit false, .execBatch done, .rollback, .close]
| .commitErr =>
  [.connect, .setAutocommit false, .execBatch recs, .rollback, .close]

/-- Embeds `insert_data_to_neon` of `mainWithRadar.py` lines 108-155 as the
event trace of one call: after a successful commit, and only when a Radar
secret key is configured, the loop calls `upsert_radar_geofence` once per
record in order, issuing one PUT for each record that has coordinates; on a
database error there is a rollback and no Radar traffic. -/
def insert_data_to_neon_radar (recs : List DataRec) (radarKey : Bool)
    (outcome : BatchOutcome) : List Ev :=
match outcome with
| .ok =>
  [.connect, .setAutocommit false, .execBatch recs, .commit]
    ++ (if radarKey then (recs.filterMap upsert_radar_geofence).map Ev.httpPut
        else [])
    ++ [.close]
| .connectErr => []
| .execErr done =>
  [.connect, .setAutocommit false, .execBatch done, .rollback, .close]
| .commitErr =>
  [.connect, .setAutocommit false, .execBatch recs, .rollback, .close]

/-- Recognises Radar PUT events in a trace. -/
def isPut (e : Ev) : Bool :=
match e with
| .httpPut _ => true
| _ => false

/-- Recognises batch-execution events in a trace. -/
def isExec (e : Ev) : Bool :=
match e with
| .execBatch _ => true
| _ => false

/-- C2: `clean_value` returns `None` exactly for NA/NaT inputs and for inputs
whose stripped string form is empty or case-insensitively `"nan"`; on every
other input it returns the stripped string with at most one trailing `".0"`
removed. -/
theorem clean_value_spec (c : Cell) :
    (clean_value c = Option.none ↔
      c = Cell.na ∨ ∃ s f, c = Cell.val s f ∧
        (pstrip s = [] ∨ plower (pstrip s) = "nan".data)) ∧
    (∀ s f, c = Cell.val s f → pstrip s ≠ [] →
      plower (pstrip s) ≠ "nan".data →
      clean_value c = some (stripDotZero (pstrip s))) := by
  constructor
  · cases c with
    | na => simp [clean_value]
    | val s f =>
      simp only [clean_value]
      by_cases h : pstrip s = [] ∨ plower (pstrip s) = "nan".data
      · simp [h]
      · simp [h]
  · intro s f hc h1 h2
    subst hc
    simp [clean_value, h1, h2]

/-- Witness for C2 at the cell with string form `" 12.0 "`. -/
theorem clean_value_spec_witness :
    clean_value (Cell.val " 12.0 ".data Option.none) = some "12".data := by
  have h := (clean_value_spec (Cell.val " 12.0 ".data Option.none)).2
    " 12.0 ".data Option.none rfl (by decide) (by decide)
  exact h.trans (by decide)

/-- C6: `clean_boolean` returns `True` exactly when the stripped lowercase
string form is `"true"`, `"yes"` or `"1"`, `False` exactly when it is
`"false"`, `"no"` or `"0"`, and `None` for NA and for every other value. -/
theorem clean_boolean_spec (c : Cell) :
    (clean_boolean c = some true ↔ ∃ s f, c = Cell.val s f ∧
      (plower (pstrip s) = "true".data ∨ plower (pstrip s) = "yes".data ∨
       plower (pstrip s) = "1".data)) ∧
    (clean_boolean c = some false ↔ ∃ s f, c = Cell.val s f ∧
      (plower (pstrip s) = "false".data ∨ plower (pstrip s) = "no".data ∨
       plower (pstrip s) = "0".data)) ∧
    (clean_boolean c = Option.none ↔
      c = Cell.na ∨ ∃ s f, c = Cell.val s f ∧
        ¬(plower (pstrip s) = "true".data ∨ plower (pstrip s) = "yes".data ∨
          plower (pstrip s) = "1".data) ∧
        ¬(plower (pstrip s) = "false".data ∨ plower (pstrip s) = "no".data ∨
          plower (pstrip s) = "0".data)) := by
  cases c with
  | na => simp [clean_boolean]
  | val s f =>
    simp only [clean_boolean]
    by_cases h1 : plower (pstrip s) = "true".data ∨
        plower (pstrip s) = "yes".data ∨ plower (pstrip s) = "1".data
    · rcases h1 with h | h | h <;> simp [h]
    · by_cases h2 : plower (pstrip s) = "false".data ∨
          plower (pstrip s) = "no".data ∨ plower (pstrip s) = "0".data
      · rcases h2 with h | h | h <;> simp [h]
      · push_neg at h1 h2
        simp [h1.1, h1.2.1, h1.2.2, h2.1, h2.2.1, h2.2.2]

/-- C7: the `numeric_cols` pipeline turns every missing or unparseable cell
into the integer `0`, the `numeric_float_cols` pipeline turns them into
`None` (and keeps parsed numbers), and `clean_numeric` of `tallyDealers.py`
returns `None` on NA or unconvertible values and `float(value)` otherwise. -/
theorem numeric_cols_spec (c : Cell) :
    ((c = Cell.na ∨ ∃ s, c = Cell.val s Option.none) →
      coerce_int_cell c = 0 ∧ coerce_float_cell c = Option.none) ∧
    (∀ s q, c = Cell.val s (some q) → coerce_float_cell c = some q) ∧
    clean_numeric Cell.na = Option.none ∧
    (∀ s, clean_numeric (Cell.val s Option.none) = Option.none) ∧
    (∀ s q, clean_numeric (Cell.val s (some q)) = some q) := by
  refine ⟨?_, ?_, rfl, fun s => rfl, fun s q => rfl⟩
  · rintro (rfl | ⟨s, rfl⟩) <;>
      simp [coerce_int_cell, coerce_float_cell, to_numeric_coerce]
  · rintro s q rfl
    simp [coerce_float_cell, to_numeric_coerce]

/-- Witness for C7: the NA cell coerces to `0` and to `None`, and
`clean_numeric` keeps the parsed value `5/2`. -/
theorem numeric_cols_spec_witness :
    (coerce_int_cell Cell.na = 0 ∧ coerce_float_cell Cell.na = Option.none) ∧
    clean_numeric (Cell.val "2.5".data (some (5/2))) = some (5/2) := by
  refine ⟨(numeric_cols_spec Cell.na).1 (Or.inl rfl), ?_⟩
  exact (numeric_cols_spec (Cell.val "2.5".data (some (5/2)))).2.2.2.2
    "2.5".data (5/2)

/-- C8: a cell whose stripped string form is `".0"` passes the emptiness and
`"nan"` tests, and the trailing-`".0"` removal then leaves the empty string,
so `clean_value` returns `''` rather than `None`. -/
theorem clean_value_dotzero (s : PyStr) (f : Option Rat)
    (h : pstrip s = ".0".data) :
    clean_value (Cell.val s f) = some [] := by
  simp only [clean_value, h]
  decide

/-- Witness for C8 at the cell with string form `" .0 "`. -/
theorem clean_value_dotzero_witness :
    clean_value (Cell.val " .0 ".data Option.none) = some [] :=
  clean_value_dotzero " .0 ".data Option.none (by decide)

/-- C9 counterexample: `clean_value` maps the string `" .0"` to the empty
string, but maps the empty string to `None`, so feeding a non-`None` result
back into `clean_value` does not always reproduce it. -/
theorem clean_value_idem_counterexample :
    clean_value (Cell.val " .0".data Option.none) = some [] ∧
    clean_value (Cell.val ([] : PyStr) Option.none) = Option.none := by
  decide

/-- C9 as amended: `clean_value` is idempotent on a non-`None` result `s`
provided `s` is itself fully cleaned — already stripped, non-empty, not
case-insensitively `"nan"`, and without a trailing `".0"`. -/
theorem clean_value_idem (c : Cell) (s : PyStr) (f : Option Rat)
    (h : clean_value c = some s) (h1 : pstrip s = s) (h2 : s ≠ [])
    (h3 : plower s ≠ "nan".data) (h4 : ¬ ['.', '0'].isSuffixOf s) :
    clean_value (Cell.val s f) = some s := by
  simp [clean_value, h1, h2, h3, stripDotZero, h4]

/-- Witness for C9 at the result string `"abc"` of `clean_value("abc")`. -/
theorem clean_value_idem_witness :
    clean_value (Cell.val "abc".data Option.none) = some "abc".data :=
  clean_value_idem (Cell.val "abc".data Option.none) "abc".data Option.none
    (by decide) (by decide) (by decide) (by decide) (by decide)

/-- The `main.py` tuple literal always has exactly `EXPECTED_COLUMNS`
elements. -/
theorem data_tuple_length (id : PyStr) (r : DealerRow) :
    (data_tuple id r).length = EXPECTED_COLUMNS := rfl

/-- The `verifiedDealers.py` tuple literal always has exactly
`vd_EXPECTED_COLUMNS` elements. -/
theorem vdata_tuple_length (r : VerifiedRow) :
    (vdata_tuple r).length = vd_EXPECTED_COLUMNS := rfl

/-- The skip-on-wrong-length fold of `main.py`, run from any accumulator,
keeps every row. -/
theorem records_foldl_eq (rows : List (PyStr × DealerRow))
    (acc : List DataRec) :
    rows.foldl
      (fun acc p =>
        if (data_tuple p.1 p.2).length ≠ EXPECTED_COLUMNS then acc
        else acc ++ [data_tuple p.1 p.2]) acc
      = acc ++ rows.map (fun p => data_tuple p.1 p.2) := by
  induction rows generalizing acc with
  | nil => simp
  | cons p l ih =>
    rw [List.foldl_cons, if_neg (by simp [data_tuple_length]), ih]
    simp

/-- The keep-on-right-length fold of `verifiedDealers.py`, run from any
accumulator, keeps every row. -/
theorem vd_records_foldl_eq (rows : List VerifiedRow) (acc : List DataRec) :
    rows.foldl
      (fun acc r =>
        if (vdata_tuple r).length = vd_EXPECTED_COLUMNS then
          acc ++ [vdata_tuple r]
        else acc) acc
      = acc ++ rows.map vdata_tuple := by
  induction rows generalizing acc with
  | nil => simp
  | cons r l ih =>
    rw [List.foldl_cons, if_pos (vdata_tuple_length r), ih]
    simp

/-- C5: the record-assembly loops of `main.py` and `verifiedDealers.py`
produce exactly one tuple per DataFrame row, each of the expected length, and
the per-row length check never rejects a row: the records passed to the
insert are exactly the mapped rows. -/
theorem records_one_per_row (rows : List (PyStr × DealerRow))
    (vrows : List VerifiedRow) :
    records_to_insert rows = rows.map (fun p => data_tuple p.1 p.2) ∧
    (records_to_insert rows).length = rows.length ∧
    (∀ t ∈ records_to_insert rows, t.length = EXPECTED_COLUMNS) ∧
    vd_records_to_insert vrows = vrows.map vdata_tuple ∧
    (vd_records_to_insert vrows).length = vrows.length ∧
    (∀ t ∈ vd_records_to_insert vrows, t.length = vd_EXPECTED_COLUMNS) := by
  have h1 : records_to_insert rows = rows.map (fun p => data_tuple p.1 p.2) :=
    records_foldl_eq rows []
  have h2 : vd_records_to_insert vrows = vrows.map vdata_tuple :=
    vd_records_foldl_eq vrows []
  refine ⟨h1, ?_, ?_, h2, ?_, ?_⟩
  · rw [h1, List.length_map]
  · intro t ht
    rw [h1] at ht
    obtain ⟨p, _, rfl⟩ := List.mem_map.mp ht
    exact data_tuple_length p.1 p.2
  · rw [h2, List.length_map]
  · intro t ht
    rw [h2] at ht
    obtain ⟨r, _, rfl⟩ := List.mem_map.mp ht
    exact vdata_tuple_length r

/-- A concrete dealer row with coordinates, used to instantiate theorems. -/
def sampleDealerRow : DealerRow :=
{ user_id := 7, type := Option.none, parent_dealer_id := Option.none,
  name := some "A".data, region := some "East".data, area := Option.none,
  phone_no := "99".data, address := Option.none, total_potential := 1,
  best_potential := 2, brand_selling := Cell.na, feedbacks := Option.none,
  remarks := Option.none, pinCode := Option.none, dateOfBirth := Option.none,
  anniversaryDate := Option.none, latitude := some 1, longitude := some 2,
  verificationStatus := Option.none, business_type := Option.none,
  nameOfFirm := Option.none, underSalesPromoterName := Option.none,
  gstin_no := Option.none, pan_no := Option.none }

/-- A concrete verified-dealer row, used to instantiate theorems. -/
def sampleVerifiedRow : VerifiedRow :=
{ dealer_code := some "D1".data, dealer_category := Option.none,
  is_subdealer := some true, dealer_party_name := Option.none,
  zone := Option.none, area := Option.none, contact_no1 := Option.none,
  contact_no2 := Option.none, email := Option.none, address := Option.none,
  pin_code := Option.none, related_sp_name := Option.none,
  owner_proprietor_name := Option.none, nature_of_firm := Option.none,
  gst_no := Option.none, pan_no := Option.none }

/-- Witness for C5 on one-row inputs for both scripts. -/
theorem records_one_per_row_witness :
    (records_to_insert [("id1".data, sampleDealerRow)]).length = 1 ∧
    (data_tuple "id1".data sampleDealerRow).length = EXPECTED_COLUMNS ∧
    (vd_records_to_insert [sampleVerifiedRow]).length = 1 ∧
    (vdata_tuple sampleVerifiedRow).length = vd_EXPECTED_COLUMNS := by
  have h := records_one_per_row [("id1".data, sampleDealerRow)]
    [sampleVerifiedRow]
  refine ⟨h.2.1, ?_, h.2.2.2.2.1, ?_⟩
  · exact h.2.2.1 (data_tuple "id1".data sampleDealerRow)
      (by rw [h.1]; simp)
  · exact h.2.2.2.2.2 (vdata_tuple sampleVerifiedRow) (by rw [h.2.2.2.1]; simp)

/-- C1: one call of `insert_data_to_neon` runs the batch inside a single
transaction with autocommit disabled: on success the whole batch is
committed, on a psycopg2 error nothing of the batch is persisted, and no
connection or pending transaction survives the call in any case. -/
theorem insert_data_to_neon_spec (db : List DataRec) (recs : List DataRec)
    (outcome : BatchOutcome) :
    (runTrace (initState db) (insert_data_to_neon recs outcome)).openConn
        = false ∧
    (runTrace (initState db) (insert_data_to_neon recs outcome)).pending
        = [] ∧
    (outcome = BatchOutcome.ok →
      (runTrace (initState db) (insert_data_to_neon recs outcome)).db
        = db ++ recs) ∧
    (outcome ≠ BatchOutcome.ok →
      (runTrace (initState db) (insert_data_to_neon recs outcome)).db
        = db) := by
  cases outcome <;>
    simp [insert_data_to_neon, runTrace, step, initState]

/-- Witness for C1: a success commits the one-record batch, an
`execute_batch` failure leaves the database unchanged. -/
theorem insert_data_to_neon_spec_witness :
    (runTrace (initState []) (insert_data_to_neon [[Py.int 1]]
        BatchOutcome.ok)).db = [[Py.int 1]] ∧
    (runTrace (initState [[Py.int 5]]) (insert_data_to_neon [[Py.int 1]]
        (BatchOutcome.execErr [[Py.int 1]]))).db = [[Py.int 5]] ∧
    (runTrace (initState []) (insert_data_to_neon [[Py.int 1]]
        BatchOutcome.ok)).openConn = false := by
  have h1 := insert_data_to_neon_spec [] [[Py.int 1]] BatchOutcome.ok
  have h2 := insert_data_to_neon_spec [[Py.int 5]] [[Py.int 1]]
    (BatchOutcome.execErr [[Py.int 1]])
  exact ⟨(h1.2.2.1 rfl).trans (by simp), h2.2.2.2 (by simp), h1.1⟩

/-- The sample row without a name, exercising `str(None)` in the geofence
description. -/
def rowNoName : DealerRow := { sampleDealerRow with name := Option.none }

/-- The sample row without a latitude. -/
def rowNoCoord : DealerRow := { sampleDealerRow with latitude := Option.none }

/-- The sample row with the fill value `0` for a missing `user_id`. -/
def rowUid0 : DealerRow := { sampleDealerRow with user_id := 0 }

/-- A default payload, only used to project concrete `Option RadarPayload`
values. -/
def defaultPayload : RadarPayload :=
{ description := [], type := "", coordinates := [], radius := "", tag := "",
  externalId := [], metadata := [] }

/-- C4 counterexample: a record with coordinates but a `None` name gets a PUT
whose description is the string `"None"` — the Python `str()` of `None` — not
a truncation of any name string stored in the record. -/
theorem upsert_radar_name_counterexample :
    (upsert_radar_geofence (data_tuple "u-77".data rowNoName)).map
        RadarPayload.description = some "None".data ∧
    (data_tuple "u-77".data rowNoName).getD 4 Py.none = Py.none := by
  exact ⟨rfl, rfl⟩

/-- C4 as amended: whenever `upsert_radar_geofence` issues a request, the
payload is the circle of radius `"50"` at `[longitude, latitude]`, tagged
`dealer`, with externalId `dealer:<id>` and description the Python string
form of the record's name truncated to 120 characters (the name itself when
it is a string); when latitude or longitude is `None` no request is issued
and the function returns `False`. -/
theorem upsert_radar_geofence_spec (t : DataRec) :
    (∀ p, upsert_radar_geofence t = some p →
      p.type = "circle" ∧
      p.radius = "50" ∧
      p.tag = "dealer" ∧
      p.coordinates
        = [pyFloat (t.getD 18 Py.none), pyFloat (t.getD 17 Py.none)] ∧
      p.externalId = "dealer:".data ++ pyStr (t.getD 0 Py.none) ∧
      p.description = (pyStr (t.getD 4 Py.none)).take 120 ∧
      t.getD 17 Py.none ≠ Py.none ∧
      t.getD 18 Py.none ≠ Py.none ∧
      (∀ s, t.getD 4 Py.none = Py.str s → p.description = s.take 120)) ∧
    ((t.getD 17 Py.none = Py.none ∨ t.getD 18 Py.none = Py.none) →
      upsert_radar_geofence t = Option.none ∧
      ∀ b, upsert_radar_result t b = false) := by
  constructor
  · intro p hp
    simp only [upsert_radar_geofence] at hp
    by_cases hl : t.getD 17 Py.none = Py.none ∨ t.getD 18 Py.none = Py.none
    · rw [if_pos hl] at hp
      cases hp
    · rw [if_neg hl] at hp
      push_neg at hl
      obtain rfl := Option.some.inj hp
      refine ⟨rfl, rfl, rfl, rfl, rfl, rfl, hl.1, hl.2, ?_⟩
      intro s hs
      show (pyStr (t.getD 4 Py.none)).take 120 = s.take 120
      rw [hs]
      rfl
  · intro hl
    have h0 : upsert_radar_geofence t = Option.none := by
      simp only [upsert_radar_geofence]
      rw [if_pos hl]
    refine ⟨h0, fun b => ?_⟩
    simp [upsert_radar_result, h0]

/-- The payload of the sample dealer record. -/
def wPayload : RadarPayload :=
(upsert_radar_geofence (data_tuple "w".data sampleDealerRow)).getD
  defaultPayload

/-- Witness for C4 at the sample record (and its coordinate-free variant). -/
theorem upsert_radar_geofence_spec_witness :
    wPayload.tag = "dealer" ∧ wPayload.radius = "50" ∧
    wPayload.description = "A".data ∧
    upsert_radar_geofence (data_tuple "n".data rowNoCoord) = Option.none := by
  have h := (upsert_radar_geofence_spec
    (data_tuple "w".data sampleDealerRow)).1 wPayload rfl
  have h2 := (upsert_radar_geofence_spec (data_tuple "n".data rowNoCoord)).2
    (Or.inl rfl)
  refine ⟨h.2.2.1, h.2.1, ?_, h2.1⟩
  exact (h.2.2.2.2.2.2.2.2 "A".data rfl).trans rfl

/-- Filtering for `None`-valued entries after they were removed yields
nothing. -/
theorem filter_none_after_remove (l : List (String × Py)) :
    (l.filter (fun kv => kv.2 ≠ Py.none)).filter (fun kv => kv.2 = Py.none)
      = [] := by
  induction l with
  | nil => rfl
  | cons kv l ih =>
    by_cases h : kv.2 = Py.none <;> simp [List.filter_cons, h, ih]

/-- C10: the metadata sent with a geofence PUT never contains a `None` value,
and a `user_id` of `0` (the fill value for missing user ids, falsy in
Python) leaves no `userId` key in the metadata. -/
theorem radar_metadata_clean (t : DataRec) :
    ∀ p, upsert_radar_geofence t = some p →
      p.metadata.filter (fun kv => kv.2 = Py.none) = [] ∧
      (t.getD 1 Py.none = Py.int 0 →
        p.metadata.filter (fun kv => kv.1 = "userId") = []) := by
  intro p hp
  simp only [upsert_radar_geofence] at hp
  by_cases hl : t.getD 17 Py.none = Py.none ∨ t.getD 18 Py.none = Py.none
  · rw [if_pos hl] at hp
    cases hp
  · rw [if_neg hl] at hp
    obtain rfl := Option.some.inj hp
    constructor
    · exact filter_none_after_remove _
    · intro hu
      show (radar_metadata _ _ _ _ _ _).filter (fun kv => kv.1 = "userId") = []
      simp only [radar_metadata, hu]
      rw [List.filter_filter]
      simp [pyTruthy]

/-- The record tuple with `user_id = 0` and its payload. -/
def uid0Tuple : DataRec := data_tuple "z".data rowUid0

/-- The payload of the `user_id = 0` record. -/
def uid0Payload : RadarPayload :=
(upsert_radar_geofence uid0Tuple).getD defaultPayload

/-- Witness for C10 at the `user_id = 0` record. -/
theorem radar_metadata_clean_witness :
    uid0Payload.metadata.filter (fun kv => kv.2 = Py.none) = [] ∧
    uid0Payload.metadata.filter (fun kv => kv.1 = "userId") = [] := by
  have h := radar_metadata_clean uid0Tuple uid0Payload rfl
  exact ⟨h.1, h.2 rfl⟩

/-- In a trace whose prefix contains no PUT events, any PUT sits at an index
past that prefix. -/
theorem put_index_ge (pre post : List Ev)
    (hpre : ∀ e ∈ pre, isPut e = false)
    (i : Nat) (h : i < (pre ++ post).length)
    (hput : isPut ((pre ++ post).get ⟨i, h⟩) = true) :
    pre.length ≤ i := by
  by_contra hlt
  push_neg at hlt
  have hg : (pre ++ post).get ⟨i, h⟩ = pre.get ⟨i, hlt⟩ :=
    List.get_append i hlt
  rw [hg, hpre (pre.get ⟨i, hlt⟩) (pre.get_mem i hlt)] at hput
  cases hput

/-- The successful `mainWithRadar.py` trace with a key: insert prefix, then
the PUTs, then the close. -/
theorem radar_trace_ok_true (recs : List DataRec) :
    insert_data_to_neon_radar recs true BatchOutcome.ok
      = [Ev.connect, Ev.setAutocommit false, Ev.execBatch recs, Ev.commit]
        ++ ((recs.filterMap upsert_radar_geofence).map Ev.httpPut
            ++ [Ev.close]) := by
  simp [insert_data_to_neon_radar]

/-- Without a key, or on any failing outcome, the `mainWithRadar.py` trace
contains no PUT events. -/
theorem radar_trace_no_put (recs : List DataRec) (radarKey : Bool)
    (outcome : BatchOutcome)
    (h : radarKey = false ∨ outcome ≠ BatchOutcome.ok) :
    ∀ e ∈ insert_data_to_neon_radar recs radarKey outcome, isPut e = false := by
  intro e he
  cases outcome with
  | ok =>
    cases radarKey with
    | false =>
      simp only [insert_data_to_neon_radar, if_neg Bool.false_ne_true,
        List.nil_append] at he
      fin_cases he <;> rfl
    | true =>
      rcases h with h | h
      · cases h
      · exact absurd rfl h
  | connectErr => cases he
  | execErr done =>
    simp only [insert_data_to_neon_radar] at he
    fin_cases he <;> rfl
  | commitErr =>
    simp only [insert_data_to_neon_radar] at he
    fin_cases he <;> rfl

/-- C3: in `mainWithRadar.py`, PUT events occur only when the run has a Radar
key and the batched INSERT committed, and every PUT sits strictly after the
commit in the trace; the batch is executed at most once (never retried), each
record contributes at most one PUT (records without coordinates contribute
none), and no PUT is ever repeated for a record. -/
theorem radar_puts_after_commit (recs : List DataRec) (radarKey : Bool)
    (outcome : BatchOutcome) :
    (∀ i (h : i < (insert_data_to_neon_radar recs radarKey outcome).length),
      isPut ((insert_data_to_neon_radar recs radarKey outcome).get ⟨i, h⟩)
          = true →
      radarKey = true ∧ outcome = BatchOutcome.ok ∧
      Ev.commit ∈ (insert_data_to_neon_radar recs radarKey outcome).take i) ∧
    (insert_data_to_neon_radar recs radarKey outcome).countP isExec ≤ 1 ∧
    (insert_data_to_neon_radar recs true BatchOutcome.ok).filter isPut
      = (recs.filterMap upsert_radar_geofence).map Ev.httpPut ∧
    (recs.filterMap upsert_radar_geofence).length ≤ recs.length ∧
    (insert_data_to_neon_radar recs radarKey outcome).countP isPut
      ≤ recs.length := by
  have hmapput : ∀ L : List RadarPayload,
      ∀ e ∈ L.map Ev.httpPut, isPut e = true := by
    intro L e he
    obtain ⟨p, _, rfl⟩ := List.mem_map.mp he
    rfl
  have hfilter : (insert_data_to_neon_radar recs true BatchOutcome.ok).filter
      isPut = (recs.filterMap upsert_radar_geofence).map Ev.httpPut := by
    rw [radar_trace_ok_true, List.filter_append, List.filter_append]
    rw [List.filter_eq_self.mpr (hmapput _)]
    simp [isPut]
  have hnoput : ∀ (key : Bool) (oc : BatchOutcome),
      key = false ∨ oc ≠ BatchOutcome.ok →
      (insert_data_to_neon_radar recs key oc).countP isPut = 0 := by
    intro key oc hko
    rw [List.countP_eq_zero]
    intro e he
    rw [radar_trace_no_put recs key oc hko e he]
    simp
  refine ⟨?_, ?_, hfilter, List.length_filterMap_le _ _, ?_⟩
  · intro i h hput
    cases radarKey with
    | false =>
      rw [radar_trace_no_put recs false outcome (Or.inl rfl) _
        (List.get_mem _ i h)] at hput
      cases hput
    | true =>
      cases outcome with
      | connectErr =>
        rw [radar_trace_no_put recs true BatchOutcome.connectErr
          (Or.inr (by simp)) _ (List.get_mem _ i h)] at hput
        cases hput
      | execErr done =>
        rw [radar_trace_no_put recs true (BatchOutcome.execErr done)
          (Or.inr (by simp)) _ (List.get_mem _ i h)] at hput
        cases hput
      | commitErr =>
        rw [radar_trace_no_put recs true BatchOutcome.commitErr
          (Or.inr (by simp)) _ (List.get_mem _ i h)] at hput
        cases hput
      | ok =>
        refine ⟨rfl, rfl, ?_⟩
        revert h hput
        rw [radar_trace_ok_true]
        intro h hput
        have h4 : 4 ≤ i := by
          refine put_index_ge
            [Ev.connect, Ev.setAutocommit false, Ev.execBatch recs, Ev.commit]
            _ ?_ i h hput
          intro e he
          fin_cases he <;> rfl
        rw [List.take_append_eq_append_take,
          List.take_all_of_le (by simpa using h4)]
        exact List.mem_append_left _ (by simp)
  · cases radarKey with
    | false =>
      cases outcome <;>
        simp [insert_data_to_neon_radar, List.countP_cons, isExec]
    | true =>
      cases outcome with
      | connectErr => simp [insert_data_to_neon_radar]
      | execErr done =>
        simp [insert_data_to_neon_radar, List.countP_cons, isExec]
      | commitErr =>
        simp [insert_data_to_neon_radar, List.countP_cons, isExec]
      | ok =>
        rw [radar_trace_ok_true, List.countP_append, List.countP_append]
        have hz : ((recs.filterMap upsert_radar_geofence).map
            Ev.httpPut).countP isExec = 0 := by
          rw [List.countP_eq_zero]
          intro e he
          obtain ⟨p, _, rfl⟩ := List.mem_map.mp he
          simp [isExec]
        rw [hz]
        simp [List.countP_cons, isExec]
  · cases radarKey with
    | false =>
      rw [hnoput false outcome (Or.inl rfl)]
      exact Nat.zero_le _
    | true =>
      cases outcome with
      | connectErr =>
        rw [hnoput true BatchOutcome.connectErr (Or.inr (by simp))]
        exact Nat.zero_le _
      | execErr done =>
        rw [hnoput true (BatchOutcome.execErr done) (Or.inr (by simp))]
        exact Nat.zero_le _
      | commitErr =>
        rw [hnoput true BatchOutcome.commitErr (Or.inr (by simp))]
        exact Nat.zero_le _
      | ok =>
        have hc : (insert_data_to_neon_radar recs true
            BatchOutcome.ok).countP isPut
            = ((insert_data_to_neon_radar recs true
              BatchOutcome.ok).filter isPut).length := by
          exact List.countP_eq_length_filter _ _
        rw [hc, hfilter, List.length_map]
        exact List.length_filterMap_le _ _

/-- Witness for C3: in the successful keyed run over the sample record, the
event at index 4 is a PUT, the commit lies among the first four events, and
the batch is executed exactly once. -/
theorem radar_puts_after_commit_witness :
    Ev.commit ∈ (insert_data_to_neon_radar
        [data_tuple "w".data sampleDealerRow] true BatchOutcome.ok).take 4 ∧
    (insert_data_to_neon_radar [data_tuple "w".data sampleDealerRow] true
        BatchOutcome.ok).countP isExec ≤ 1 ∧
    (insert_data_to_neon_radar [data_tuple "w".data sampleDealerRow] true
        BatchOutcome.ok).countP isPut ≤ 1 := by
  have h := radar_puts_after_commit [data_tuple "w".data sampleDealerRow]
    true BatchOutcome.ok
  exact ⟨(h.1 4 (by decide) (by decide)).2.2, h.2.1, h.2.2.2.2⟩

/-- Witness for C6 at the cell with string form `" YES "`. -/
theorem clean_boolean_spec_witness :
    clean_boolean (Cell.val " YES ".data Option.none) = some true := by
  exact (clean_boolean_spec (Cell.val " YES ".data Option.none)).1.mpr
    ⟨" YES ".data, Option.none, rfl, Or.inr (Or.inl (by decide))⟩
